import Mathlib

/-!
# The polyglot hello examples

A shallow embedding of `examples/polyglot/hello.c` and
`examples/polyglot/hello.cpp`.

Standard output is the sequence of characters written to the stream so far
(`List Char`, one element per `char`).  A `const char*` that points to a string
is the sequence of characters stored from the pointed-to address on; the string
it designates ends before the first NUL.

The code is embedded twice.  The first part takes a greeter of hello.c to hold
a string and standard output to take every write.  The second part (`Proc`)
makes the pointer values and the state of the process explicit; the lemmas
`proc_*_refines` show that both agree where the first part applies.
-/

set_option linter.dupNamespace false

/-! ## Library functions used by the two programs -/

/-- The terminating character of a C string. -/
def NUL : Char := Char.ofNat 0

/-- The newline character. -/
def NL : Char := Char.ofNat 10

/-- A C string literal as stored: its characters followed by the terminating NUL. -/
def lit (s : String) : List Char := s.toList ++ [NUL]

/-- The string designated by a `const char*`: the characters stored from the
pointer on, up to and excluding the first NUL. -/
def c_str (p : List Char) : List Char := p.takeWhile (fun c => c != NUL)

/-- Expansion of a `printf` format against its `char*` arguments.  The
directives covered are `%s` (the designated string of the next argument) and
`%%`; any other character is copied.  `none` stands for undefined behaviour (an
unknown directive, or `%s` with no argument left).  Surplus arguments are
ignored. -/
def format : List Char → List (List Char) → Option (List Char)
  | [], _ => some []
  | c :: fmt, args =>
    if c = '%' then
      match fmt, args with
      | d :: fmt', args =>
        if d = 's' then
          match args with
          | p :: args' => (format fmt' args').map (fun r => c_str p ++ r)
          | [] => none
        else if d = '%' then (format fmt' args).map (fun r => '%' :: r)
        else none
      | [], _ => none
    else (format fmt args).map (fun r => c :: r)

/-- The effect of `printf(fmt, args...)` on standard output: the expansion of the string
designated by `fmt` is appended.  The returned count is not modelled (the
caller discards it). -/
def printf (fmt : List Char) (args : List (List Char)) (out : List Char) :
    Option (List Char) :=
  (format (c_str fmt) args).map (fun r => out ++ r)

namespace HelloC

/-- The `struct Greeter` of hello.c: one `const char*` field. -/
structure Greeter where
  message : List Char
  deriving DecidableEq, Repr

/-- The function `say_hello(struct Greeter* g)`: `printf("%s\n", g->message)`.  The result
holds the pointed-to greeter after the call and the new standard output. -/
def say_hello (g : Greeter) (out : List Char) : Option (Greeter × List Char) :=
  (printf (lit "%s\n") [g.message] out).map (fun out' => (g, out'))

/-- The function `main` of hello.c: builds `g = { "Hello C" }`, calls `say_hello(&g)`,
returns 0.  The result is the exit status and the final standard output. -/
def main (out : List Char) : Option (Int × List Char) :=
  let g : Greeter := { message := lit "Hello C" }
  (say_hello g out).map (fun r => ((0 : Int), r.2))

end HelloC

namespace HelloCpp

/-- The conversion `std::string(const char*)` applied to a literal argument: the
designated string is copied. -/
def std_string (p : List Char) : List Char := c_str p

/-- The `operator<<` of an output stream for a `std::string`: every character of the
string is inserted (the field width is 0 throughout, nothing sets it). -/
def put (os : List Char) (s : List Char) : List Char := os ++ s

/-- The manipulator `std::endl`: inserts a newline (and flushes). -/
def endl (os : List Char) : List Char := os ++ [NL]

/-- The `class Greeter` of hello.cpp: one `std::string` member. -/
structure Greeter where
  message : List Char
  deriving DecidableEq, Repr

/-- The constructor `Greeter(std::string msg) : message(msg) {}`. -/
def Greeter.Greeter (msg : List Char) : HelloCpp.Greeter := { message := msg }

/-- The method `sayHello()`: `std::cout << message << std::endl`.  The result holds
the object after the call and the new standard output. -/
def Greeter.sayHello (g : HelloCpp.Greeter) (cout : List Char) :
    HelloCpp.Greeter × List Char :=
  (g, endl (put cout g.message))

/-- The function `main` of hello.cpp: builds `Greeter g("Hello C++")`, calls
`g.sayHello()`, returns 0.  The result is the exit status and the final
standard output. -/
def main (cout : List Char) : Int × List Char :=
  let g : HelloCpp.Greeter := Greeter.Greeter (std_string (lit "Hello C++"))
  let r := g.sayHello cout
  ((0 : Int), r.2)

end HelloCpp

/-! ## The same code with pointers and the process state explicit

Above, a greeter of hello.c holds a string and standard output takes every
write.  Here `message` is any value of type `const char*`, and the functions
act on the state of the running process: its command-line arguments, its
environment, what standard output has received, and whether the device behind
it accepts writes.  Termination of the process by a signal is not part of this
state. -/

/-- A value of type `const char*`: the null pointer, a pointer to no live
NUL-terminated array, or a pointer to stored characters holding a string. -/
inductive CharPtr where
  | null
  | dangling
  | string (stored : List Char)
  deriving DecidableEq, Repr

/-- Reading through a `const char*`: the characters stored there; nothing
(undefined behaviour) for a null or dangling pointer. -/
def CharPtr.chars : CharPtr → Option (List Char)
  | CharPtr.string stored => some stored
  | CharPtr.null => none
  | CharPtr.dangling => none

/-- The state of a running process that a C or C++ program can reach. -/
structure World where
  argv : List (List Char)
  envp : List (List Char)
  stdout : List Char
  stdout_accepts : Bool
  deriving DecidableEq, Repr

/-- Writing characters to standard output: they are delivered when the device
accepts writes; otherwise none is delivered and the failure is reported to the
caller only through the return value or the stream state. -/
def World.write (w : World) (s : List Char) : World :=
  if w.stdout_accepts then { w with stdout := w.stdout ++ s } else w

/-- What a run shows from outside: the exit status and standard output. -/
def observe (r : Int × World) : Int × List Char := (r.1, r.2.stdout)

namespace Proc

/-- Expansion of a `printf` format against pointer arguments: as the expansion
above, and `%s` reads its argument through the pointer, so a null or dangling
argument consumed by `%s` is undefined.  Arguments no directive consumes are
not read. -/
def format : List Char → List CharPtr → Option (List Char)
  | [], _ => some []
  | c :: fmt, args =>
    if c = '%' then
      match fmt, args with
      | d :: fmt', args =>
        if d = 's' then
          match args with
          | p :: args' =>
            match p.chars with
            | some stored => (format fmt' args').map (fun r => c_str stored ++ r)
            | none => none
          | [] => none
        else if d = '%' then (format fmt' args).map (fun r => '%' :: r)
        else none
      | [], _ => none
    else (format fmt args).map (fun r => c :: r)

/-- The call `printf(fmt, args...)` in a process: the format is read through its pointer,
expanded, and the expansion written to standard output.  The return value is
not modelled (the caller discards it). -/
def printf (fmt : CharPtr) (args : List CharPtr) (w : World) : Option World :=
  match fmt.chars with
  | some stored => (format (c_str stored) args).map (fun r => w.write r)
  | none => none

/-- The conversion `std::string(const char*)`: copies the string read through the
pointer; undefined for a null or dangling pointer. -/
def std_string (p : CharPtr) : Option (List Char) := p.chars.map c_str

/-- The `operator<<` of `std::cout` for a `std::string`: writes every character of the
string. -/
def put (w : World) (s : List Char) : World := w.write s

/-- The manipulator `std::endl`: writes a newline (and flushes). -/
def endl (w : World) : World := w.write [NL]

namespace HelloC

/-- The `struct Greeter` of hello.c as declared: `message` is any `const char*`. -/
structure Greeter where
  message : CharPtr
  deriving DecidableEq, Repr

/-- The function `say_hello(struct Greeter* g)`: `printf("%s\n", g->message)`. -/
def say_hello (g : Greeter) (w : World) : Option (Greeter × World) :=
  (printf (CharPtr.string (lit "%s\n")) [g.message] w).map (fun w' => (g, w'))

/-- The function `main` of hello.c: `int main()` with `g = { "Hello C" }`,
`say_hello(&g)`, `return 0`. -/
def main (w : World) : Option (Int × World) :=
  let g : Greeter := { message := CharPtr.string (lit "Hello C") }
  (say_hello g w).map (fun r => ((0 : Int), r.2))

end HelloC

namespace HelloCpp

/-- The method `sayHello()` of hello.cpp: `std::cout << message << std::endl`. -/
def sayHello (g : HelloCpp.Greeter) (w : World) : HelloCpp.Greeter × World :=
  (g, endl (put w g.message))

/-- The function `main` of hello.cpp: `int main()` with `Greeter g("Hello C++")`,
`g.sayHello()`, `return 0`. -/
def main (w : World) : Option (Int × World) :=
  (std_string (CharPtr.string (lit "Hello C++"))).map (fun s =>
    let g : HelloCpp.Greeter := HelloCpp.Greeter.Greeter s
    let r := sayHello g w
    ((0 : Int), r.2))

end HelloCpp

end Proc

/-! ## Repeating a call -/

/-- Calls `say_hello(&g)` `n` times in a row on the same object. -/
def HelloC.say_hello_times : Nat → HelloC.Greeter → List Char →
    Option (HelloC.Greeter × List Char)
  | 0, g, out => some (g, out)
  | n + 1, g, out =>
    (HelloC.say_hello g out).bind (fun r => HelloC.say_hello_times n r.1 r.2)

/-- Calls `g.sayHello()` `n` times in a row on the same object. -/
def HelloCpp.sayHello_times : Nat → HelloCpp.Greeter → List Char →
    HelloCpp.Greeter × List Char
  | 0, g, cout => (g, cout)
  | n + 1, g, cout =>
    let r := g.sayHello cout
    HelloCpp.sayHello_times n r.1 r.2

/-- The lines written by `n` calls: `n` copies of the message, each followed by a
newline. -/
def lines (n : Nat) (m : List Char) : List Char :=
  (List.replicate n (m ++ [NL])).flatten

/-! ## Shared lemmas -/

theorem c_str_append_NUL (m rest : List Char) (h : NUL ∉ m) :
    c_str (m ++ NUL :: rest) = m := by
  induction m with
  | nil => simp [c_str, List.takeWhile]
  | cons a m ih =>
    have ha : a ≠ NUL := fun e => h (by simp [e])
    have hm : NUL ∉ m := fun e => h (by simp [e])
    have := ih hm
    simp only [c_str] at this ⊢
    simp [List.takeWhile_cons, ha, this]

theorem NUL_not_mem_c_str (p : List Char) : NUL ∉ c_str p := by
  intro h
  have := List.mem_takeWhile_imp h
  simp at this

theorem format_s_nl (p : List Char) :
    format (c_str (lit "%s\n")) [p] = some (c_str p ++ [NL]) := rfl

theorem printf_s_nl (p out : List Char) :
    printf (lit "%s\n") [p] out = some (out ++ (c_str p ++ [NL])) := by
  simp [printf, format_s_nl]

theorem HelloC.say_hello_eq (g : HelloC.Greeter) (out : List Char) :
    HelloC.say_hello g out = some (g, out ++ (c_str g.message ++ [NL])) := by
  simp [HelloC.say_hello, printf_s_nl]

theorem HelloCpp.sayHello_eq (g : HelloCpp.Greeter) (cout : List Char) :
    g.sayHello cout = (g, cout ++ (g.message ++ [NL])) := by
  simp [HelloCpp.Greeter.sayHello, HelloCpp.endl, HelloCpp.put]

theorem lines_succ (n : Nat) (m : List Char) :
    lines (n + 1) m = (m ++ [NL]) ++ lines n m := by
  simp [lines, List.replicate_succ]

theorem count_NL_line (m : List Char) (h : NL ∉ m) : (m ++ [NL]).count NL = 1 := by
  simp [List.count_append, List.count_eq_zero_of_not_mem h]

theorem HelloC.say_hello_times_eq (n : Nat) (g : HelloC.Greeter) (out : List Char) :
    HelloC.say_hello_times n g out = some (g, out ++ lines n (c_str g.message)) := by
  induction n generalizing out with
  | zero => simp [HelloC.say_hello_times, lines]
  | succ n ih =>
    simp [HelloC.say_hello_times, HelloC.say_hello_eq, ih, lines_succ]

theorem HelloCpp.sayHello_times_eq (n : Nat) (g : HelloCpp.Greeter) (cout : List Char) :
    HelloCpp.sayHello_times n g cout = (g, cout ++ lines n g.message) := by
  induction n generalizing cout with
  | zero => simp [HelloCpp.sayHello_times, lines]
  | succ n ih =>
    simp [HelloCpp.sayHello_times, HelloCpp.sayHello_eq, ih, lines_succ]

theorem HelloC.main_eq (out : List Char) :
    HelloC.main out = some ((0 : Int), out ++ ['H', 'e', 'l', 'l', 'o', ' ', 'C', NL]) := by
  have h : c_str (lit "Hello C") = ['H', 'e', 'l', 'l', 'o', ' ', 'C'] := by decide
  simp [HelloC.main, HelloC.say_hello_eq, h]

theorem World.write_write (w : World) (a b : List Char) :
    (w.write a).write b = w.write (a ++ b) := by
  cases h : w.stdout_accepts <;> simp [World.write, h]

theorem proc_format_string (fmt : List Char) (args : List (List Char)) :
    Proc.format fmt (args.map CharPtr.string) = format fmt args := by
  induction fmt, args using format.induct with
  | case1 args => simp [Proc.format, format]
  | case2 fmt' p args' ih => simp [Proc.format, format, CharPtr.chars, ih]
  | case3 fmt' => simp [Proc.format, format]
  | case4 fmt' args _ ih => simp [Proc.format, format, ih]
  | case5 d fmt' args hs hp => simp [Proc.format, format, hs, hp]
  | case6 args => simp [Proc.format, format]
  | case7 c fmt args hc ih =>
    unfold Proc.format format
    simp [hc, ih]

theorem proc_format_s_nl (q : CharPtr) :
    Proc.format (c_str (lit "%s\n")) [q] = q.chars.map (fun stored => c_str stored ++ [NL]) := by
  cases q <;> rfl

theorem proc_say_hello_string (p : List Char) (w : World) :
    Proc.HelloC.say_hello { message := CharPtr.string p } w
      = some ({ message := CharPtr.string p }, w.write (c_str p ++ [NL])) := by
  simp [Proc.HelloC.say_hello, Proc.printf, CharPtr.chars, proc_format_s_nl]

theorem proc_hello_c_main_eq (w : World) :
    Proc.HelloC.main w
      = some ((0 : Int), w.write ['H', 'e', 'l', 'l', 'o', ' ', 'C', NL]) := by
  have h : c_str (lit "Hello C") = ['H', 'e', 'l', 'l', 'o', ' ', 'C'] := by decide
  simp [Proc.HelloC.main, proc_say_hello_string, h]

theorem proc_sayHello_eq (g : HelloCpp.Greeter) (w : World) :
    Proc.HelloCpp.sayHello g w = (g, w.write (g.message ++ [NL])) := by
  simp [Proc.HelloCpp.sayHello, Proc.endl, Proc.put, World.write_write]

theorem proc_hello_cpp_main_eq (w : World) :
    Proc.HelloCpp.main w
      = some ((0 : Int), w.write ['H', 'e', 'l', 'l', 'o', ' ', 'C', '+', '+', NL]) := by
  have h : c_str (lit "Hello C++") = ['H', 'e', 'l', 'l', 'o', ' ', 'C', '+', '+'] := by
    decide
  simp [Proc.HelloCpp.main, Proc.std_string, CharPtr.chars, proc_sayHello_eq,
    HelloCpp.Greeter.Greeter, h]

theorem proc_say_hello_refines (p : List Char) (argv envp : List (List Char))
    (out : List Char) :
    (Proc.HelloC.say_hello { message := CharPtr.string p }
        { argv := argv, envp := envp, stdout := out, stdout_accepts := true }).map
      (fun r => r.2.stdout)
      = (HelloC.say_hello { message := p } out).map Prod.snd := by
  simp [proc_say_hello_string, HelloC.say_hello_eq, World.write]

theorem proc_hello_c_main_refines (argv envp : List (List Char)) (out : List Char) :
    (Proc.HelloC.main
        { argv := argv, envp := envp, stdout := out, stdout_accepts := true }).map observe
      = HelloC.main out := by
  simp [proc_hello_c_main_eq, HelloC.main_eq, World.write, observe]

theorem proc_sayHello_refines (g : HelloCpp.Greeter) (argv envp : List (List Char))
    (cout : List Char) :
    (Proc.HelloCpp.sayHello g
        { argv := argv, envp := envp, stdout := cout, stdout_accepts := true }).2.stdout
      = (g.sayHello cout).2 := by
  simp [proc_sayHello_eq, HelloCpp.sayHello_eq, World.write]

theorem proc_hello_cpp_main_refines (argv envp : List (List Char)) (cout : List Char) :
    (Proc.HelloCpp.main
        { argv := argv, envp := envp, stdout := cout, stdout_accepts := true }).map observe
      = some (HelloCpp.main cout) := by
  have h : c_str (lit "Hello C++") = ['H', 'e', 'l', 'l', 'o', ' ', 'C', '+', '+'] := by
    decide
  simp [proc_hello_cpp_main_eq, HelloCpp.main, HelloCpp.sayHello_eq, HelloCpp.std_string,
    HelloCpp.Greeter.Greeter, World.write, observe, h]

/-! ## The properties of the two programs -/

/-- C1: running `main` of hello.c from an empty standard output leaves standard
output equal to the text "Hello C" followed by one newline, nothing else, and
returns exit status 0. -/
theorem hello_c_main_prints_one_line :
    HelloC.main [] = some ((0 : Int), ['H', 'e', 'l', 'l', 'o', ' ', 'C', NL]) := by
  decide

/-- C3: the result of either program is independent of how it is invoked: for
any two choices of command-line arguments and environment, with standard
output in the same state, both runs of `main` complete with the same exit
status and the same standard output. -/
theorem hello_result_independent_of_invocation
    (argv₁ envp₁ argv₂ envp₂ : List (List Char)) (out : List Char) (acc : Bool) :
    (∃ r : Int × List Char,
      (Proc.HelloC.main
        { argv := argv₁, envp := envp₁, stdout := out, stdout_accepts := acc }).map observe
        = some r ∧
      (Proc.HelloC.main
        { argv := argv₂, envp := envp₂, stdout := out, stdout_accepts := acc }).map observe
        = some r) ∧
    (∃ r : Int × List Char,
      (Proc.HelloCpp.main
        { argv := argv₁, envp := envp₁, stdout := out, stdout_accepts := acc }).map observe
        = some r ∧
      (Proc.HelloCpp.main
        { argv := argv₂, envp := envp₂, stdout := out, stdout_accepts := acc }).map observe
        = some r) := by
  cases acc <;>
    simp [proc_hello_c_main_eq, proc_hello_cpp_main_eq, World.write, observe]

/-- C4: in hello.c, for every greeter `g` and every prior standard output `out`,
`say_hello(&g)` leaves standard output equal to `out`, then the string that
`g.message` designates, then exactly one newline. -/
theorem hello_c_say_hello_appends_message_line (g : HelloC.Greeter) (out : List Char) :
    (HelloC.say_hello g out).map Prod.snd = some (out ++ c_str g.message ++ [NL]) := by
  simp [HelloC.say_hello_eq]

/-- C5: in hello.cpp, for every string `msg`, `Greeter(msg)` has `message` equal to
`msg`, and `sayHello` on it appends exactly `msg` followed by one newline to
standard output. -/
theorem hello_cpp_ctor_and_sayHello (msg cout : List Char) :
    (HelloCpp.Greeter.Greeter msg).message = msg ∧
    ((HelloCpp.Greeter.Greeter msg).sayHello cout).2 = cout ++ msg ++ [NL] := by
  simp [HelloCpp.sayHello_eq, HelloCpp.Greeter.Greeter]

/-- C6: when the message holds no newline, the text `w` written by `say_hello`
(hello.c) and by `sayHello` (hello.cpp) is exactly one line: `w` has exactly one
newline, the newline is its last character, and what precedes it is the
message. -/
theorem hello_written_text_is_one_line (gc : HelloC.Greeter) (gp : HelloCpp.Greeter)
    (hc : NL ∉ c_str gc.message) (hp : NL ∉ gp.message) :
    (∃ w : List Char,
      (∀ out, (HelloC.say_hello gc out).map Prod.snd = some (out ++ w)) ∧
      w.count NL = 1 ∧ w.getLast? = some NL ∧ w.dropLast = c_str gc.message) ∧
    (∃ w : List Char,
      (∀ cout, (gp.sayHello cout).2 = cout ++ w) ∧
      w.count NL = 1 ∧ w.getLast? = some NL ∧ w.dropLast = gp.message) := by
  refine ⟨⟨c_str gc.message ++ [NL], fun out => ?_, count_NL_line _ hc, ?_, ?_⟩,
    ⟨gp.message ++ [NL], fun cout => ?_, count_NL_line _ hp, ?_, ?_⟩⟩
  · simp [HelloC.say_hello_eq]
  · simp
  · simp
  · simp [HelloCpp.sayHello_eq]
  · simp
  · simp

/-- Instance of C6 at the greeters holding "Hi": both hypotheses hold there. -/
theorem hello_written_text_is_one_line_witness :
    NL ∉ c_str (lit "Hi") ∧ NL ∉ ['H', 'i'] ∧
    (∃ w : List Char,
      (∀ out, (HelloC.say_hello { message := lit "Hi" } out).map Prod.snd
        = some (out ++ w)) ∧
      w.count NL = 1 ∧ w.getLast? = some NL ∧ w.dropLast = c_str (lit "Hi")) ∧
    (∃ w : List Char,
      (∀ cout, (HelloCpp.Greeter.sayHello { message := ['H', 'i'] } cout).2 = cout ++ w) ∧
      w.count NL = 1 ∧ w.getLast? = some NL ∧ w.dropLast = ['H', 'i']) :=
  ⟨by decide, by decide,
    hello_written_text_is_one_line { message := lit "Hi" } { message := ['H', 'i'] }
      (by decide) (by decide)⟩

/-- C7: printing leaves the greeter as it was: after `say_hello(&g)` (hello.c) or
`g.sayHello()` (hello.cpp) the greeter, and so its `message`, is unchanged, and
`n` calls in a row append `n` copies of the same line to standard output. -/
theorem hello_printing_keeps_greeter :
    (∀ (g : HelloC.Greeter) (out : List Char),
        (HelloC.say_hello g out).map Prod.fst = some g) ∧
    (∀ (n : Nat) (g : HelloC.Greeter) (out : List Char),
        HelloC.say_hello_times n g out
          = some (g, out ++ (List.replicate n (c_str g.message ++ [NL])).flatten)) ∧
    (∀ (g : HelloCpp.Greeter) (cout : List Char), (g.sayHello cout).1 = g) ∧
    (∀ (n : Nat) (g : HelloCpp.Greeter) (cout : List Char),
        HelloCpp.sayHello_times n g cout
          = (g, cout ++ (List.replicate n (g.message ++ [NL])).flatten)) :=
  ⟨fun g out => by simp [HelloC.say_hello_eq],
   fun n g out => HelloC.say_hello_times_eq n g out,
   fun g cout => by simp [HelloCpp.sayHello_eq],
   fun n g cout => HelloCpp.sayHello_times_eq n g cout⟩
